import Mathlib

/-!
# Verification of the Text2Vid browser client (frontend/src/app/page.jsx)

A shallow embedding of the client orchestration logic of the Text2Vid
frontend.  The component keeps its reactive fields in `PageState`; every
handler is embedded as a pure function from the current state (plus an
explicit environment supplying HTTP outcomes and `Date.now()` readings)
to the next state together with the ordered list of observable effects
the handler performs (state setters, outbound HTTP requests, speech
synthesis commands, timers, console errors).  Effects appear in the list
in the exact order the JavaScript executes them; `await` points are
reflected by the position of the awaited call's result effects relative
to the effects that textually follow it.

Informational `console.log` lines are not modelled; `console.error`
lines are, because the generation-failure path routes the server-supplied
error text there.
-/

namespace Text2Vid

/-- Whitespace characters removed by the JS `String.prototype.trim` as it
applies to this client's inputs (the ASCII whitespace range). -/
def jsIsWhitespace (c : Char) : Bool :=
  c == ' ' || c == '\t' || c == '\n' || c == '\r'

/-- Model of the JS `String.prototype.trim`: strip whitespace from both
ends.  Defined by structural recursion over the character data so that
concrete inputs evaluate. -/
def jsTrim (s : String) : String :=
  ⟨((s.data.dropWhile jsIsWhitespace).reverse.dropWhile jsIsWhitespace).reverse⟩

/-- Model of the JS `String.prototype.split` with a single-character
separator: every occurrence of the separator produces a boundary, so
adjacent separators produce empty pieces, exactly as in JS. -/
def jsSplitAux (sep : Char) : List Char → List Char → List String
  | [], acc => [⟨acc.reverse⟩]
  | c :: cs, acc =>
    if c == sep then ⟨acc.reverse⟩ :: jsSplitAux sep cs []
    else jsSplitAux sep cs (c :: acc)

/-- JS `s.split(sep)` for a one-character separator. -/
def jsSplit (sep : Char) (s : String) : List String := jsSplitAux sep s.data []

/-- JS truthiness of an optional string field: `undefined` and `""` are
falsy, every other string is truthy. -/
def jsTruthyStr : Option String → Bool
  | none => false
  | some s => s != ""

/-- JS `a || b` where `a` is an optional string field and `b` a string
literal, as in `data.error || "API request failed"`. -/
def jsOrStr (a : Option String) (b : String) : String :=
  match a with
  | none => b
  | some s => if s != "" then s else b

/-- JS string coercion of a possibly-`undefined` field when it is used in
string concatenation (`undefined + "?t=" + ...` yields `"undefined?t=..."`). -/
def jsFieldStr : Option String → String
  | none => "undefined"
  | some s => s

/-- Decoded body of a generation response:
`{outputPath?: string, note?: string, error?: string}`. -/
structure GenBody where
  outputPath : Option String
  note : Option String
  error : Option String
  deriving Repr, DecidableEq

/-- Decoded body of the caption-metadata resource `props.json`:
`{textForSpeech?: string[], promptText?: string}`.  An absent field is
`none`; a present field (even an empty array or empty string) is `some`. -/
structure PropsBody where
  textForSpeech : Option (List String)
  promptText : Option String
  deriving Repr, DecidableEq

/-- Result of `await response.json()`: the decoded body, or `malformed`
(the promise rejected on an undecodable body, carrying the host
exception message). -/
inductive JsonResult (β : Type) where
  | malformed (msg : String)
  | decoded (data : β)
  deriving Repr, DecidableEq

/-- Outcome of one `fetch` call as the client observes it:
either the fetch promise rejects (`netErr`, carrying the host exception
message), or a response arrives with an HTTP `ok` flag and the result of
`response.json()`. -/
inductive FetchOutcome (β : Type) where
  | netErr (msg : String)
  | response (ok : Bool) (body : JsonResult β)
  deriving Repr, DecidableEq

/-- Environment of one `handleGenerate` run: the outcome of the generation
request, the outcome of the caption-metadata request, and the three
`Date.now()` readings taken on the success path (lines 162, 163 and 172
of page.jsx).  The readings are independent inputs: the embedding imposes
no relation between them. -/
structure GenEnv where
  genResult : FetchOutcome GenBody
  propsResult : FetchOutcome PropsBody
  nowKey : Nat
  nowPath : Nat
  nowProps : Nat
  deriving Repr, DecidableEq

/-- The reactive fields of the `TikTokVideoGenerator` component
(`useState` hooks, page.jsx lines 26-36). -/
structure PageState where
  prompt : String
  documentFile : Option String
  videoPath : String
  loading : Bool
  error : String
  notification : String
  captions : List String
  selectedTemplate : String
  selectedOrientation : String
  selectedLength : String
  videoKey : Nat
  deriving Repr, DecidableEq

/-- The two mutually exclusive outbound generation requests:
multipart document upload (`/render-video-document`) or structured JSON
prompt request (`/render-video`). -/
inductive Request where
  | documentReq (file template orientation videoLength : String)
  | promptReq (userPrompt template orientation videoLength : String)
  deriving Repr, DecidableEq

/-- Observable effects performed by the handlers, in execution order. -/
inductive Effect where
  | fetchGenerate (req : Request)
  | setLoading (b : Bool)
  | setError (s : String)
  | setVideoPath (s : String)
  | setNotification (s : String)
  | setCaptions (l : List String)
  | setVideoKey (k : Nat)
  | setPrompt (s : String)
  | setDocumentFile (f : Option String)
  | fetchProps (url : String)
  | consoleError (s : String)
  | speechCancel
  | speechPause
  | speechSpeak (text : String)
  | setTimeoutReload (delayMs : Nat)
  | videoLoad
  deriving Repr, DecidableEq

/-- The validation gate of `handleGenerate` (line 112):
`!prompt.trim() && !documentFile`. -/
def validationFails (s : PageState) : Bool :=
  jsTrim s.prompt == "" && s.documentFile.isNone

/-- Error message published when the validation gate fails (line 113). -/
def validationMessage : String := "Please enter a prompt or upload a document!"

/-- The fixed error message published on any generation-path failure
(line 185). -/
def genFailureMessage : String :=
  "Failed to generate video. Please check backend logs."

/-- The request `handleGenerate` builds from the form state
(lines 124-152): the multipart document variant whenever a file is
attached, otherwise the structured prompt variant. -/
def buildRequest (s : PageState) : Request :=
  match s.documentFile with
  | some f => .documentReq f s.selectedTemplate s.selectedOrientation s.selectedLength
  | none => .promptReq s.prompt s.selectedTemplate s.selectedOrientation s.selectedLength

/-- State after the five setters that open the submission
(lines 117-121): loading on, error, video path, notification and captions
cleared. -/
def clearedState (s : PageState) : PageState :=
  { s with loading := true, error := "", videoPath := "",
           notification := "", captions := [] }

/-- Effects of the five setters that open the submission (lines 117-121). -/
def clearEffects : List Effect :=
  [.setLoading true, .setError "", .setVideoPath "", .setNotification "",
   .setCaptions []]

/-- State when the outer `catch`/`finally` has run (lines 183-188):
the fixed failure message is published and loading is cleared.  The video
path stays as the submission left it — empty. -/
def failureState (s : PageState) : PageState :=
  { clearedState s with error := genFailureMessage, loading := false }

/-- Effect trace of a run whose generation request fails: the opening
setters, the request, then the `catch` (console line and fixed error
message) and the `finally` (loading cleared). -/
def failureTrace (req : Request) (msg : String) : List Effect :=
  clearEffects ++
    [.fetchGenerate req,
     .consoleError ("❌ Error generating video: " ++ msg),
     .setError genFailureMessage, .setLoading false]

/-- Caption derivation from the decoded `props.json` body
(lines 174-179).  `some l` means `setCaptions l` is called; `none` means
neither branch fires and the captions are left alone.  Mirrors JS
truthiness: a present `textForSpeech` array is truthy even when empty;
`promptText` is truthy only when a non-empty string. -/
def captionsFromProps (props : PropsBody) : Option (List String) :=
  match props.textForSpeech with
  | some l => some l
  | none =>
    match props.promptText with
    | some t => if t != "" then
        some ((jsSplit '\n' t).filter (fun line => jsTrim line != ""))
      else none
    | none => none

/-- URL of the cache-busted caption-metadata fetch (line 172). -/
def propsUrl (env : GenEnv) : String :=
  "http://localhost:5000/videos/props.json?t=" ++ toString env.nowProps

/-- The caption-fetch step (lines 170-182).  It is awaited inside the
outer `try`; its own failures are caught by the inner `catch` and only
logged, leaving the state untouched. -/
def captionStep (s : PageState) (env : GenEnv) : PageState × List Effect :=
  match env.propsResult with
  | .netErr msg =>
    (s, [.fetchProps (propsUrl env),
         .consoleError ("Failed to load captions: " ++ msg)])
  | .response _ body =>
    match body with
    | .malformed msg =>
      (s, [.fetchProps (propsUrl env),
           .consoleError ("Failed to load captions: " ++ msg)])
    | .decoded props =>
      match captionsFromProps props with
      | some l => ({ s with captions := l }, [.fetchProps (propsUrl env), .setCaptions l])
      | none => (s, [.fetchProps (propsUrl env)])

/-- Success branch of `handleGenerate` (lines 161-182 plus the
`finally`): refresh the video key, publish the cache-busted video path,
optionally publish the note, await the caption step, then clear loading. -/
def successStep (s : PageState) (env : GenEnv) (data : GenBody) :
    PageState × List Effect :=
  let path := jsFieldStr data.outputPath ++ "?t=" ++ toString env.nowPath
  let s2 : PageState := { clearedState s with videoKey := env.nowKey, videoPath := path }
  let s3 : PageState :=
    if jsTruthyStr data.note then { s2 with notification := data.note.getD "" } else s2
  let cap := captionStep s3 env
  ({ cap.1 with loading := false },
   clearEffects ++
     [.fetchGenerate (buildRequest s), .setVideoKey env.nowKey, .setVideoPath path] ++
     (if jsTruthyStr data.note then [Effect.setNotification (data.note.getD "")] else []) ++
     cap.2 ++ [.setLoading false])

/-- Shallow embedding of `handleGenerate` (page.jsx lines 111-189).
The validation gate runs first and sends nothing when it fails.
Otherwise the five opening setters run, the request chosen by
`buildRequest` is sent, `response.json()` is awaited before the `ok`
check (an undecodable body reaches the `catch` regardless of the status),
a non-OK status throws `data.error || "API request failed"`, and the
`catch` publishes the fixed failure message while the `finally` clears
loading on every path. -/
def handleGenerate (s : PageState) (env : GenEnv) : PageState × List Effect :=
  if validationFails s then
    ({ s with error := validationMessage }, [.setError validationMessage])
  else
    match env.genResult with
    | .netErr msg => (failureState s, failureTrace (buildRequest s) msg)
    | .response ok body =>
      match body with
      | .malformed msg => (failureState s, failureTrace (buildRequest s) msg)
      | .decoded data =>
        if ok then successStep s env data
        else (failureState s,
              failureTrace (buildRequest s) (jsOrStr data.error "API request failed"))

/-- The submit button (lines 290-298) carries `disabled={loading}`; a
disabled button never fires its `onClick`, so a click reaches
`handleGenerate` only when `loading` is false. -/
def clickGenerate (s : PageState) (env : GenEnv) : PageState × List Effect :=
  if s.loading then (s, []) else handleGenerate s env

/-- `handleClear` (lines 99-109): reset all fields and cancel narration. -/
def handleClear (s : PageState) : PageState × List Effect :=
  ({ s with prompt := "", documentFile := none, videoPath := "", error := "",
            notification := "", captions := [] },
   [.setPrompt "", .setDocumentFile none, .setVideoPath "", .setError "",
    .setNotification "", .setCaptions [], .speechCancel])

/-- The video element is rendered exactly when `videoPath` is non-empty
(line 304), so `videoRef.current` is non-null exactly then. -/
def videoRefAttached (s : PageState) : Bool := s.videoPath != ""

/-- `handleVideoPlay` (lines 70-83): when captions are present and a
speech engine is available, cancel any prior narration and speak all
captions joined with `". "` as one utterance. -/
def handleVideoPlay (s : PageState) (speechAvailable : Bool) : List Effect :=
  if s.captions.length > 0 && speechAvailable then
    [.speechCancel, .speechSpeak (String.intercalate ". " s.captions)]
  else []

/-- `handleVideoPause` (lines 86-90): pause narration. -/
def handleVideoPause (speechAvailable : Bool) : List Effect :=
  if speechAvailable then [.speechPause] else []

/-- `handleVideoEnded` (lines 93-97): cancel narration. -/
def handleVideoEnded (speechAvailable : Bool) : List Effect :=
  if speechAvailable then [.speechCancel] else []

/-- `handleVideoError` (lines 56-67): log the error; when the video
element is rendered, set a fresh key from `Date.now()` and schedule a
single 500 ms timer that will call `load()` on the element. -/
def handleVideoError (s : PageState) (now : Nat) : PageState × List Effect :=
  if videoRefAttached s then
    ({ s with videoKey := now },
     [.consoleError "Video playback error:", .setVideoKey now, .setTimeoutReload 500])
  else
    (s, [.consoleError "Video playback error:"])

/-- Expiry of the 500 ms timer set by `handleVideoError` (lines 61-65):
the callback re-checks `videoRef.current` and calls `load()`. -/
def reloadTimerFire (s : PageState) : List Effect :=
  if videoRefAttached s then [.videoLoad] else []

/-- One playback-error event followed by the expiry of the timer it set. -/
def handleVideoErrorAndFire (s : PageState) (now : Nat) : PageState × List Effect :=
  let step := handleVideoError s now
  (step.1, step.2 ++ reloadTimerFire step.1)

/-- A sequence of playback-error events (with their timer expiries), one
per clock reading in the list. -/
def handleVideoErrors (s : PageState) : List Nat → PageState × List Effect
  | [] => (s, [])
  | t :: ts =>
    let step := handleVideoErrorAndFire s t
    let rest := handleVideoErrors step.1 ts
    (rest.1, step.2 ++ rest.2)

/-- The generation requests contained in an effect trace, in order. -/
def sentRequests (fx : List Effect) : List Request :=
  fx.filterMap (fun e => match e with | .fetchGenerate r => some r | _ => none)

/-- Whether a generation fetch outcome is a failure for `handleGenerate`:
the fetch rejected, the body was undecodable, or the status was non-OK. -/
def genFails : FetchOutcome GenBody → Bool
  | .netErr _ => true
  | .response _ (.malformed _) => true
  | .response ok (.decoded _) => !ok

/-- The captions field after the caption step, given the captions it
started from: unchanged on a fetch or decode failure, otherwise whatever
`captionsFromProps` selects (unchanged when it selects nothing). -/
def captionsAfter (env : GenEnv) (old : List String) : List String :=
  match env.propsResult with
  | .netErr _ => old
  | .response _ (.malformed _) => old
  | .response _ (.decoded props) => (captionsFromProps props).getD old

/-- A concrete idle form state: prompt `"cats"`, no file, defaults
selected, nothing generated yet. -/
def sampleState : PageState :=
  { prompt := "cats", documentFile := none, videoPath := "", loading := false,
    error := "", notification := "", captions := [],
    selectedTemplate := "modern", selectedOrientation := "portrait",
    selectedLength := "medium", videoKey := 1 }

/-- A concrete state in which a previously generated video is showing. -/
def showingState : PageState :=
  { sampleState with videoPath := "/videos/old.mp4?t=1", captions := ["x"] }

/-- A concrete successful generation environment returning
`/videos/out.mp4`, with the caption fetch failing. -/
def okEnv : GenEnv :=
  { genResult := .response true (.decoded
      { outputPath := some "/videos/out.mp4", note := none, error := none }),
    propsResult := .netErr "connection refused",
    nowKey := 42, nowPath := 42, nowProps := 42 }

/-- A concrete failing environment: HTTP 500 whose decodable body is
`{error: "boom"}`. -/
def boomEnv : GenEnv :=
  { genResult := .response false (.decoded
      { outputPath := none, note := none, error := some "boom" }),
    propsResult := .netErr "connection refused",
    nowKey := 42, nowPath := 42, nowProps := 42 }

/-- The exception message the outer `catch` of `handleGenerate` receives
for each kind of generation failure. -/
def genFailMsg : FetchOutcome GenBody → String
  | .netErr m => m
  | .response _ (.malformed m) => m
  | .response _ (.decoded d) => jsOrStr d.error "API request failed"

/- ## Basic lemmas about the embedding -/

theorem sentRequests_append (a b : List Effect) :
    sentRequests (a ++ b) = sentRequests a ++ sentRequests b :=
  List.filterMap_append a b _

theorem captionStep_fst (s : PageState) (env : GenEnv) :
    (captionStep s env).1 = { s with captions := captionsAfter env s.captions } := by
  obtain ⟨g, pr, nk, np, npr⟩ := env
  cases pr with
  | netErr m => rfl
  | response ok body =>
    cases body with
    | malformed m => rfl
    | decoded props =>
      simp only [captionStep, captionsAfter]
      cases captionsFromProps props <;> rfl

theorem sentRequests_captionStep (s : PageState) (env : GenEnv) :
    sentRequests (captionStep s env).2 = [] := by
  obtain ⟨g, pr, nk, np, npr⟩ := env
  cases pr with
  | netErr m => rfl
  | response ok body =>
    cases body with
    | malformed m => rfl
    | decoded props =>
      simp only [captionStep]
      cases captionsFromProps props <;> rfl

theorem captionStep_mem_fetchProps (s : PageState) (env : GenEnv) :
    Effect.fetchProps (propsUrl env) ∈ (captionStep s env).2 := by
  obtain ⟨g, pr, nk, np, npr⟩ := env
  cases pr with
  | netErr m => exact List.mem_cons_self _ _
  | response ok body =>
    cases body with
    | malformed m => exact List.mem_cons_self _ _
    | decoded props =>
      simp only [captionStep]
      cases captionsFromProps props <;> exact List.mem_cons_self _ _

theorem captionStep_no_speechCancel (s : PageState) (env : GenEnv) :
    Effect.speechCancel ∉ (captionStep s env).2 := by
  obtain ⟨g, pr, nk, np, npr⟩ := env
  cases pr with
  | netErr m => simp [captionStep]
  | response ok body =>
    cases body with
    | malformed m => simp [captionStep]
    | decoded props =>
      simp only [captionStep]
      cases captionsFromProps props <;> simp

theorem captionStep_count_setLoading_false (s : PageState) (env : GenEnv) :
    (captionStep s env).2.count (Effect.setLoading false) = 0 := by
  obtain ⟨g, pr, nk, np, npr⟩ := env
  cases pr with
  | netErr m => simp [captionStep, List.count_cons]
  | response ok body =>
    cases body with
    | malformed m => simp [captionStep, List.count_cons]
    | decoded props =>
      simp only [captionStep]
      cases captionsFromProps props <;> simp [List.count_cons]

theorem handleGenerate_of_fails (s : PageState) (env : GenEnv)
    (hgate : validationFails s = false) (hfail : genFails env.genResult = true) :
    handleGenerate s env =
      (failureState s, failureTrace (buildRequest s) (genFailMsg env.genResult)) := by
  obtain ⟨g, pr, nk, np, npr⟩ := env
  cases g with
  | netErr m => simp [handleGenerate, hgate, genFailMsg]
  | response ok body =>
    cases body with
    | malformed m => simp [handleGenerate, hgate, genFailMsg]
    | decoded data =>
      have hok : ok = false := by
        simpa [genFails] using hfail
      subst hok
      simp [handleGenerate, hgate, genFailMsg]

theorem handleGenerate_of_success (s : PageState) (env : GenEnv) (data : GenBody)
    (hgate : validationFails s = false)
    (hres : env.genResult = .response true (.decoded data)) :
    handleGenerate s env = successStep s env data := by
  simp [handleGenerate, hgate, hres]

theorem successStep_fst (s : PageState) (env : GenEnv) (data : GenBody) :
    (successStep s env data).1 =
      { s with loading := false, error := "",
               videoPath := jsFieldStr data.outputPath ++ "?t=" ++ toString env.nowPath,
               notification := if jsTruthyStr data.note then data.note.getD "" else "",
               captions := captionsAfter env [], videoKey := env.nowKey } := by
  unfold successStep
  cases h : jsTruthyStr data.note <;>
    simp [h, captionStep_fst, clearedState]

theorem handleGenerate_form_unchanged (s : PageState) (env : GenEnv) :
    (handleGenerate s env).1.prompt = s.prompt ∧
      (handleGenerate s env).1.documentFile = s.documentFile := by
  obtain ⟨g, pr, nk, np, npr⟩ := env
  unfold handleGenerate
  cases hv : validationFails s with
  | true => simp
  | false =>
    cases g with
    | netErr m => simp [failureState, clearedState]
    | response ok body =>
      cases body with
      | malformed m => simp [failureState, clearedState]
      | decoded data =>
        cases ok with
        | false => simp [failureState, clearedState]
        | true => simp [successStep_fst]

theorem sentRequests_clearEffects : sentRequests clearEffects = [] := rfl

theorem sentRequests_failureTrace (req : Request) (msg : String) :
    sentRequests (failureTrace req msg) = [req] := rfl

theorem sentRequests_nil : sentRequests [] = [] := rfl

theorem sentRequests_cons_fetch (r : Request) (l : List Effect) :
    sentRequests (Effect.fetchGenerate r :: l) = r :: sentRequests l := rfl

theorem sentRequests_cons_setVideoKey (k : Nat) (l : List Effect) :
    sentRequests (Effect.setVideoKey k :: l) = sentRequests l := rfl

theorem sentRequests_cons_setVideoPath (p : String) (l : List Effect) :
    sentRequests (Effect.setVideoPath p :: l) = sentRequests l := rfl

theorem sentRequests_cons_setNotification (n : String) (l : List Effect) :
    sentRequests (Effect.setNotification n :: l) = sentRequests l := rfl

theorem sentRequests_cons_setLoading (b : Bool) (l : List Effect) :
    sentRequests (Effect.setLoading b :: l) = sentRequests l := rfl

theorem sentRequests_successStep (s : PageState) (env : GenEnv) (data : GenBody) :
    sentRequests (successStep s env data).2 = [buildRequest s] := by
  unfold successStep
  cases h : jsTruthyStr data.note <;>
    simp [h, sentRequests_append, sentRequests_clearEffects, sentRequests_captionStep,
          sentRequests_nil, sentRequests_cons_fetch, sentRequests_cons_setVideoKey,
          sentRequests_cons_setVideoPath, sentRequests_cons_setNotification,
          sentRequests_cons_setLoading]

theorem sentRequests_handleGenerate (s : PageState) (env : GenEnv) :
    sentRequests (handleGenerate s env).2 =
      if validationFails s then [] else [buildRequest s] := by
  obtain ⟨g, pr, nk, np, npr⟩ := env
  unfold handleGenerate
  cases hv : validationFails s with
  | true => simp [sentRequests]
  | false =>
    cases g with
    | netErr m => simp [sentRequests_failureTrace]
    | response ok body =>
      cases body with
      | malformed m => simp [sentRequests_failureTrace]
      | decoded data =>
        cases ok with
        | false => simp [sentRequests_failureTrace]
        | true => simp [sentRequests_successStep]

/- ## The claims -/

/-- C5: at most one generation request is in flight at any time: a second
submit while the state machine is in Submitting (`loading = true`) has no
observable effect — the click is rejected at the UI boundary
(`disabled={loading}`), so the state is unchanged and no second HTTP
request is sent. -/
theorem single_flight_click_noop (s : PageState) (env : GenEnv)
    (h : s.loading = true) :
    clickGenerate s env = (s, []) ∧
      sentRequests (clickGenerate s env).2 = [] := by
  simp [clickGenerate, h, sentRequests]

theorem single_flight_click_noop_witness :
    clickGenerate { sampleState with loading := true } okEnv
        = ({ sampleState with loading := true }, []) ∧
      sentRequests (clickGenerate { sampleState with loading := true } okEnv).2 = [] :=
  single_flight_click_noop { sampleState with loading := true } okEnv rfl

/-- C7: the submit handler builds exactly one of the two request
variants: with a file attached it sends the multipart document request
(even when prompt text is present); with no file and a non-whitespace
prompt it sends the structured prompt request; with an empty/whitespace
prompt and no file it publishes the validation error and sends no HTTP
request at all. -/
theorem request_builder_exclusive (s : PageState) (env : GenEnv) :
    (∀ f, s.documentFile = some f →
      sentRequests (handleGenerate s env).2 =
        [Request.documentReq f s.selectedTemplate s.selectedOrientation s.selectedLength]) ∧
    (s.documentFile = none → jsTrim s.prompt ≠ "" →
      sentRequests (handleGenerate s env).2 =
        [Request.promptReq s.prompt s.selectedTemplate s.selectedOrientation s.selectedLength]) ∧
    (s.documentFile = none → jsTrim s.prompt = "" →
      sentRequests (handleGenerate s env).2 = [] ∧
      (handleGenerate s env).1 = { s with error := validationMessage }) := by
  refine ⟨?_, ?_, ?_⟩
  · intro f hf
    have hv : validationFails s = false := by simp [validationFails, hf]
    rw [sentRequests_handleGenerate, hv]
    simp [buildRequest, hf]
  · intro hn hp
    have hv : validationFails s = false := by simp [validationFails, hn, hp]
    rw [sentRequests_handleGenerate, hv]
    simp [buildRequest, hn]
  · intro hn hp
    have hv : validationFails s = true := by simp [validationFails, hn, hp]
    constructor
    · rw [sentRequests_handleGenerate, hv]
      rfl
    · simp [handleGenerate, hv]

theorem request_builder_exclusive_witness :
    sentRequests
        (handleGenerate { sampleState with documentFile := some "notes.pdf" } okEnv).2 =
      [Request.documentReq "notes.pdf" "modern" "portrait" "medium"] :=
  (request_builder_exclusive { sampleState with documentFile := some "notes.pdf" } okEnv).1
    "notes.pdf" rfl

/-- C1 counterexample: a failed attempt does not leave the previously
published video reference visible.  Starting from a state showing
`/videos/old.mp4?t=1`, a generation attempt that fails (HTTP 500 with
body `{error: "boom"}`) ends with the video path cleared to `""`: the
previous video is gone. -/
theorem failed_generation_clears_previous_video_cex :
    showingState.videoPath = "/videos/old.mp4?t=1" ∧
    genFails boomEnv.genResult = true ∧
    (handleGenerate showingState boomEnv).1.videoPath ≠ showingState.videoPath ∧
    (handleGenerate showingState boomEnv).1.videoPath = "" := by decide

/-- C1 (amended): when a generation attempt ends in the Failed state, the
refresh token (`videoKey`) is unchanged, but the video reference does not
survive: it was cleared when Submitting began and stays empty, so the
previously published video is no longer visible.  Error, notification and
caption fields end cleared to the failure message, `""` and `[]`. -/
theorem failed_generation_state (s : PageState) (env : GenEnv)
    (hgate : validationFails s = false) (hfail : genFails env.genResult = true) :
    (handleGenerate s env).1 =
      { s with loading := false, error := genFailureMessage,
               videoPath := "", notification := "", captions := [] } := by
  rw [handleGenerate_of_fails s env hgate hfail]
  rfl

theorem failed_generation_state_witness :
    (handleGenerate showingState boomEnv).1 =
      { showingState with loading := false, error := genFailureMessage,
                          videoPath := "", notification := "", captions := [] } :=
  failed_generation_state showingState boomEnv (by decide) (by decide)

/-- C2 counterexample: for HTTP 500 with body `{error: "boom"}` the
user-visible message is not `"boom"`, and it is the very same message the
user would see for body `{error: "zap"}` — the displayed text does not
depend on the server-supplied error at all, so it is not derived from
`"boom"`. -/
theorem error_message_not_verbatim_cex :
    (handleGenerate sampleState boomEnv).1.error ≠ "boom" ∧
    (handleGenerate sampleState boomEnv).1.error =
      (handleGenerate sampleState
        { boomEnv with genResult := .response false (.decoded
            { outputPath := none, note := none, error := some "zap" }) }).1.error := by
  decide

/-- C2 (amended): every generation-path failure (network failure, non-OK
status, or malformed body) surfaces the same fixed user-visible message
`"Failed to generate video. Please check backend logs."`; the
server-supplied error text is only incorporated into the thrown error and
logged to the console, never shown to the user. -/
theorem generation_failure_fixed_message (s : PageState) (env : GenEnv)
    (hgate : validationFails s = false) :
    (genFails env.genResult = true →
      (handleGenerate s env).1.error = genFailureMessage) ∧
    (∀ data, env.genResult = .response false (.decoded data) →
      Effect.consoleError ("❌ Error generating video: " ++
          jsOrStr data.error "API request failed") ∈ (handleGenerate s env).2) := by
  constructor
  · intro hfail
    rw [handleGenerate_of_fails s env hgate hfail]
    rfl
  · intro data hres
    have hfail : genFails env.genResult = true := by rw [hres]; rfl
    rw [handleGenerate_of_fails s env hgate hfail, hres]
    simp [failureTrace, clearEffects, genFailMsg]

theorem generation_failure_fixed_message_witness :
    (handleGenerate sampleState boomEnv).1.error = genFailureMessage :=
  (generation_failure_fixed_message sampleState boomEnv (by decide)).1 (by decide)

/-- C3 counterexample: a valid submission (prompt `"cats"`, narration
captions `["x"]` present from the previous video) produces an effect
trace with no speech-cancellation command at all: `handleGenerate` never
touches the narration engine, so an active narration keeps playing. -/
theorem submit_does_not_cancel_narration_cex :
    validationFails showingState = false ∧
    Effect.speechCancel ∉ (handleGenerate showingState okEnv).2 := by decide

/-- C3 (amended): for every submission that passes the validation gate,
the transition into Submitting clears the prior error, notification and
caption set (and also the prior video reference) before the request is
sent — the first six effects are exactly the five clearing setters
followed by the request — but it does not cancel any active narration:
no speech-cancel command occurs anywhere in the trace. -/
theorem submit_clears_fields_before_send (s : PageState) (env : GenEnv)
    (hgate : validationFails s = false) :
    (handleGenerate s env).2.take 6 =
      clearEffects ++ [Effect.fetchGenerate (buildRequest s)] ∧
    Effect.speechCancel ∉ (handleGenerate s env).2 := by
  obtain ⟨g, pr, nk, np, npr⟩ := env
  unfold handleGenerate
  rw [hgate]
  cases g with
  | netErr m => simp [failureTrace, clearEffects, List.take]
  | response ok body =>
    cases body with
    | malformed m => simp [failureTrace, clearEffects, List.take]
    | decoded data =>
      cases ok with
      | false => simp [failureTrace, clearEffects, List.take]
      | true =>
        unfold successStep
        cases h : jsTruthyStr data.note <;>
          simp [h, clearEffects, List.take, captionStep_no_speechCancel]

theorem submit_clears_fields_before_send_witness :
    (handleGenerate showingState okEnv).2.take 6 =
      clearEffects ++ [Effect.fetchGenerate (buildRequest showingState)] ∧
    Effect.speechCancel ∉ (handleGenerate showingState okEnv).2 :=
  submit_clears_fields_before_send showingState okEnv (by decide)

theorem count_setLoadingFalse_clearEffects :
    clearEffects.count (Effect.setLoading false) = 0 := rfl

theorem count_setLoadingFalse_publish (r : Request) (k : Nat) (p : String) :
    [Effect.fetchGenerate r, Effect.setVideoKey k,
     Effect.setVideoPath p].count (Effect.setLoading false) = 0 := rfl

theorem count_setLoadingFalse_note (n : String) :
    [Effect.setNotification n].count (Effect.setLoading false) = 0 := rfl

/-- C4 counterexample: on a successful generation whose caption fetch
fails, the effect trace is the concrete list below: the caption-metadata
fetch (and even its failure handling) occurs strictly before loading is
re-set to false, so re-enabling of submission does wait for the caption
fetch — it does not precede it. -/
theorem caption_fetch_awaited_cex :
    (handleGenerate sampleState okEnv).2 =
      [.setLoading true, .setError "", .setVideoPath "", .setNotification "",
       .setCaptions [],
       .fetchGenerate (.promptReq "cats" "modern" "portrait" "medium"),
       .setVideoKey 42, .setVideoPath "/videos/out.mp4?t=42",
       .fetchProps "http://localhost:5000/videos/props.json?t=42",
       .consoleError "Failed to load captions: connection refused",
       .setLoading false] ∧
    ¬ ((handleGenerate sampleState okEnv).2.indexOf (Effect.setLoading false) <
        (handleGenerate sampleState okEnv).2.indexOf
          (Effect.fetchProps (propsUrl okEnv))) := by decide

/-- C4 (amended): after a successful generation, submission is re-enabled
only once the caption-metadata fetch has settled: the single
`setLoading false` is the last effect of the trace, and the caption fetch
occurs in the trace (hence strictly before it).  A caption-fetch failure
is swallowed and does not revert the Succeeded outcome: the cache-busted
video path, the empty error and the fresh refresh token all remain. -/
theorem success_reenables_after_caption_fetch (s : PageState) (env : GenEnv)
    (data : GenBody) (hgate : validationFails s = false)
    (hres : env.genResult = .response true (.decoded data)) :
    (handleGenerate s env).1.loading = false ∧
    (handleGenerate s env).2.getLast? = some (Effect.setLoading false) ∧
    (handleGenerate s env).2.count (Effect.setLoading false) = 1 ∧
    Effect.fetchProps (propsUrl env) ∈ (handleGenerate s env).2 ∧
    (∀ m, env.propsResult = .netErr m →
      (handleGenerate s env).1.videoPath =
          jsFieldStr data.outputPath ++ "?t=" ++ toString env.nowPath ∧
        (handleGenerate s env).1.error = "" ∧
        (handleGenerate s env).1.videoKey = env.nowKey ∧
        (handleGenerate s env).1.captions = []) := by
  rw [handleGenerate_of_success s env data hgate hres]
  refine ⟨?_, ?_, ?_, ?_, ?_⟩
  · rw [successStep_fst]
  · unfold successStep
    exact List.getLast?_concat _
  · unfold successStep
    simp only [List.count_append, count_setLoadingFalse_clearEffects,
               count_setLoadingFalse_publish, captionStep_count_setLoading_false]
    cases h : jsTruthyStr data.note <;>
      simp [h, count_setLoadingFalse_note, List.count_cons]
  · unfold successStep
    simp [List.mem_append, captionStep_mem_fetchProps]
  · intro m hm
    rw [successStep_fst]
    simp [captionsAfter, hm]

theorem success_reenables_after_caption_fetch_witness :
    (handleGenerate sampleState okEnv).1.loading = false :=
  (success_reenables_after_caption_fetch sampleState okEnv
    { outputPath := some "/videos/out.mp4", note := none, error := none }
    (by decide) rfl).1

/-- C6 counterexample: two consecutive successful generations that both
read the clock at millisecond 42 (`Date.now()` returning the same value
twice) both succeed, return the textually identical video path, and end
with the very same refresh token — the tokens do not differ. -/
theorem same_millisecond_refresh_token_cex :
    (handleGenerate sampleState okEnv).1.error = "" ∧
    (handleGenerate (handleGenerate sampleState okEnv).1 okEnv).1.error = "" ∧
    (handleGenerate (handleGenerate sampleState okEnv).1 okEnv).1.videoPath =
      (handleGenerate sampleState okEnv).1.videoPath ∧
    (handleGenerate (handleGenerate sampleState okEnv).1 okEnv).1.videoKey =
      (handleGenerate sampleState okEnv).1.videoKey := by decide

/-- C6 (amended): the refresh token is set to the `Date.now()` reading at
each successful generation, so two consecutive successful generations
yield distinct refresh tokens whenever their clock readings differ,
regardless of the returned `outputPath` strings; two completions within
the same millisecond yield equal tokens. -/
theorem refresh_token_differs_on_distinct_clock (s : PageState)
    (env1 env2 : GenEnv) (d1 d2 : GenBody)
    (hgate : validationFails s = false)
    (hres1 : env1.genResult = .response true (.decoded d1))
    (hres2 : env2.genResult = .response true (.decoded d2))
    (hclock : env1.nowKey ≠ env2.nowKey) :
    (handleGenerate s env1).1.videoKey = env1.nowKey ∧
    (handleGenerate (handleGenerate s env1).1 env2).1.videoKey = env2.nowKey ∧
    (handleGenerate (handleGenerate s env1).1 env2).1.videoKey ≠
      (handleGenerate s env1).1.videoKey := by
  have hforms := handleGenerate_form_unchanged s env1
  have hgate2 : validationFails (handleGenerate s env1).1 = false := by
    unfold validationFails
    rw [hforms.1, hforms.2]
    exact hgate
  have hk1 : (handleGenerate s env1).1.videoKey = env1.nowKey := by
    rw [handleGenerate_of_success s env1 d1 hgate hres1, successStep_fst]
  have hk2 : (handleGenerate (handleGenerate s env1).1 env2).1.videoKey = env2.nowKey := by
    rw [handleGenerate_of_success _ env2 d2 hgate2 hres2, successStep_fst]
  refine ⟨hk1, hk2, ?_⟩
  rw [hk1, hk2]
  exact fun h => hclock h.symm

theorem refresh_token_differs_on_distinct_clock_witness :
    (handleGenerate sampleState okEnv).1.videoKey = okEnv.nowKey ∧
    (handleGenerate (handleGenerate sampleState okEnv).1
        { okEnv with nowKey := 43 }).1.videoKey =
      (GenEnv.nowKey { okEnv with nowKey := 43 }) ∧
    (handleGenerate (handleGenerate sampleState okEnv).1
        { okEnv with nowKey := 43 }).1.videoKey ≠
      (handleGenerate sampleState okEnv).1.videoKey :=
  refresh_token_differs_on_distinct_clock sampleState okEnv
    { okEnv with nowKey := 43 }
    { outputPath := some "/videos/out.mp4", note := none, error := none }
    { outputPath := some "/videos/out.mp4", note := none, error := none }
    (by decide) rfl rfl (by decide)

/-- C8: caption precedence.  Metadata
`{textForSpeech: ["a","b"], promptText: "c\nd"}` yields the caption set
`["a","b"]` (the dedicated field wins); metadata with only
`{promptText: "c\n\nd"}` yields `["c","d"]` — the fallback splits on line
breaks and drops blank lines.  Checked both on the caption-derivation
function and end to end through a successful generation. -/
theorem caption_precedence :
    captionsFromProps
        { textForSpeech := some ["a", "b"], promptText := some "c\nd" } =
      some ["a", "b"] ∧
    captionsFromProps { textForSpeech := none, promptText := some "c\n\nd" } =
      some ["c", "d"] ∧
    (handleGenerate sampleState
        { okEnv with propsResult := .response true (.decoded
            { textForSpeech := some ["a", "b"], promptText := some "c\nd" }) }).1.captions =
      ["a", "b"] ∧
    (handleGenerate sampleState
        { okEnv with propsResult := .response true (.decoded
            { textForSpeech := none, promptText := some "c\n\nd" }) }).1.captions =
      ["c", "d"] := by decide

/-- For a rendered video, one playback-error event sets the refresh token
to the current clock reading and schedules exactly one reload after the
fixed 500 ms delay; the recovery never stops repeating: a sequence of
error events triggers exactly one reload per event, with no ceiling. -/
theorem handleVideoErrors_count (s : PageState) (times : List Nat)
    (h : videoRefAttached s = true) :
    (handleVideoErrors s times).2.count Effect.videoLoad = times.length := by
  induction times generalizing s with
  | nil => rfl
  | cons t ts ih =>
    have h2 : videoRefAttached { s with videoKey := t } = true := h
    have hstep : handleVideoErrorAndFire s t =
        ({ s with videoKey := t },
         [.consoleError "Video playback error:", .setVideoKey t,
          .setTimeoutReload 500, .videoLoad]) := by
      unfold handleVideoErrorAndFire handleVideoError reloadTimerFire
      rw [videoRefAttached] at h
      simp [videoRefAttached, h]
    simp only [handleVideoErrors, hstep]
    simp [List.count_append, List.count_cons, ih _ h2]

/-- C9 counterexample: the recovery handler does not allocate a new
refresh token on every error event.  Two consecutive playback-error
events both reading the clock at millisecond 99 (while the video is
rendered throughout): the second event sets the refresh token to the
very value it already has, so the token is unchanged and no element
recreation is forced — yet the claim asserts a new token per event. -/
theorem same_millisecond_error_token_cex :
    videoRefAttached showingState = true ∧
    videoRefAttached (handleVideoErrorAndFire showingState 99).1 = true ∧
    (handleVideoErrorAndFire
        (handleVideoErrorAndFire showingState 99).1 99).1.videoKey =
      (handleVideoErrorAndFire showingState 99).1.videoKey := by decide

/-- C9 (amended): for every media playback error received while a video
is rendered, the recovery handler sets the refresh token to the current
`Date.now()` reading — a value distinct from the old token (forcing
recreation of the media element) exactly when the clock reading differs
from it, not unconditionally — schedules the reload with the fixed
500 ms delay, and the timer issues exactly one reload instruction; over
any sequence of error events the recovery fires exactly once per event —
there is no retry ceiling. -/
theorem video_error_recovery (s : PageState) (now : Nat) (times : List Nat)
    (h : videoRefAttached s = true) :
    handleVideoErrorAndFire s now =
      ({ s with videoKey := now },
       [.consoleError "Video playback error:", .setVideoKey now,
        .setTimeoutReload 500, .videoLoad]) ∧
    (now ≠ s.videoKey → (handleVideoErrorAndFire s now).1.videoKey ≠ s.videoKey) ∧
    (handleVideoErrors s times).2.count Effect.videoLoad = times.length := by
  have hstep : handleVideoErrorAndFire s now =
      ({ s with videoKey := now },
       [.consoleError "Video playback error:", .setVideoKey now,
        .setTimeoutReload 500, .videoLoad]) := by
    unfold handleVideoErrorAndFire handleVideoError reloadTimerFire
    rw [videoRefAttached] at h
    simp [videoRefAttached, h]
  refine ⟨hstep, ?_, handleVideoErrors_count s times h⟩
  intro hne
  rw [hstep]
  exact hne

theorem video_error_recovery_witness :
    handleVideoErrorAndFire showingState 99 =
      ({ showingState with videoKey := 99 },
       [.consoleError "Video playback error:", .setVideoKey 99,
        .setTimeoutReload 500, .videoLoad]) ∧
    (handleVideoErrors showingState [10, 20, 30]).2.count Effect.videoLoad = 3 :=
  ⟨(video_error_recovery showingState 99 [10, 20, 30] (by decide)).1,
   (video_error_recovery showingState 99 [10, 20, 30] (by decide)).2.2⟩

/-- C10: when the caption-metadata body carries `textForSpeech: []`, the
empty array is truthy in JS, so the empty list is taken as the caption
set and the `promptText` fallback is never consulted: the captions end up
empty no matter what fallback text is present. -/
theorem empty_textForSpeech_wins (s : PageState) (env : GenEnv)
    (data : GenBody) (ok : Bool) (props : PropsBody)
    (hgate : validationFails s = false)
    (hres : env.genResult = .response true (.decoded data))
    (hprops : env.propsResult = .response ok (.decoded props))
    (hts : props.textForSpeech = some []) :
    captionsFromProps props = some [] ∧
    (handleGenerate s env).1.captions = [] := by
  have hcap : captionsFromProps props = some [] := by
    unfold captionsFromProps
    rw [hts]
  refine ⟨hcap, ?_⟩
  rw [handleGenerate_of_success s env data hgate hres, successStep_fst]
  simp [captionsAfter, hprops, hcap]

theorem empty_textForSpeech_wins_witness :
    (handleGenerate sampleState
        { okEnv with propsResult := .response true (.decoded
            { textForSpeech := some [], promptText := some "c\nd" }) }).1.captions =
      [] :=
  (empty_textForSpeech_wins sampleState
    { okEnv with propsResult := .response true (.decoded
        { textForSpeech := some [], promptText := some "c\nd" }) }
    { outputPath := some "/videos/out.mp4", note := none, error := none }
    true { textForSpeech := some [], promptText := some "c\nd" }
    (by decide) rfl rfl rfl).2

end Text2Vid
